import Mathlib

/-!
Verification of the OSINT monitor against its specification.

The data model is embedded from the SQL migrations
(`services/db/migrations/001_initial_schema.sql`,
`002_geocode_cache.sql`) and the frontend sources
(`AppContext.jsx`, the geo/websocket utility modules).
SQL FLOAT columns are embedded as rationals, TIMESTAMP columns as
integers, nullable columns as `Option`.
-/

namespace OSINT


/-! ## Messages table (001_initial_schema.sql, lines 33-45) -/

/-- One row of the `messages` table.  `external_id VARCHAR(255)` carries no
NOT NULL constraint, so it is an `Option`. -/
structure MessageRow where
  id : Nat
  source_id : Option Nat
  platform : String
  external_id : Option String
  text : String
  timestamp : Int
  processed : Bool
deriving DecidableEq, Repr

/-- PostgreSQL semantics of the `UNIQUE(platform, external_id)` constraint:
two rows conflict exactly when their platforms are equal and both
external ids are non-NULL and equal.  SQL treats NULL as distinct from
NULL, so two rows whose `external_id` is NULL never conflict. -/
def msgKeyConflict (r s : MessageRow) : Bool :=
  r.platform == s.platform &&
    match r.external_id, s.external_id with
    | some a, some b => a == b
    | _, _ => false

/-- Modelled from the spec: ingestion of a message under the table
constraint `UNIQUE(platform, external_id)`.  A row violating the
constraint is rejected (the duplicate ingestion is a no-op); the
collector code itself is not among the sources, only the DDL is. -/
def insertMessage (db : List MessageRow) (r : MessageRow) : List MessageRow :=
  if db.any (fun s => msgKeyConflict s r) then db else db ++ [r]

/-- Database states of the `messages` table produced by ingestion. -/
inductive MessagesReachable : List MessageRow → Prop
  | empty : MessagesReachable []
  | ingest (db : List MessageRow) (r : MessageRow) :
      MessagesReachable db → MessagesReachable (insertMessage db r)

/-- The uniqueness invariant maintained by the constraint: no two distinct
positions of the table hold conflicting rows. -/
def msgUniqueOk (db : List MessageRow) : Prop :=
  db.Pairwise (fun r s => msgKeyConflict r s = false)

/-- A message row with a NULL `external_id`, as the collector would store
for a platform item lacking a platform-scoped id. -/
def msgNullA : MessageRow :=
  { id := 1, source_id := none, platform := "telegram", external_id := none,
    text := "strike reported", timestamp := 100, processed := false }

/-- A second, distinct message row with the same platform and the same
(NULL) `external_id`. -/
def msgNullB : MessageRow :=
  { id := 2, source_id := none, platform := "telegram", external_id := none,
    text := "another report", timestamp := 101, processed := false }

/-! ## Sources table (001_initial_schema.sql, lines 19-30; 003 adds
`telegram_chat_id`) -/

/-- One row of the `sources` table.  `reliability_tier VARCHAR(10)` carries
no NOT NULL constraint, so it is an `Option`; `content_filter_rules` is an
opaque JSONB document. -/
structure SourceRow where
  id : Nat
  platform : String
  identifier : String
  display_name : Option String
  is_active : Bool
  default_conflict_id : Option Nat
  reliability_tier : Option String
  content_filter_rules : String
  telegram_chat_id : Option Int
deriving DecidableEq, Repr

/-- PostgreSQL semantics of
`CHECK (reliability_tier IN (high, medium, low))` (single-quoted in SQL): a non-NULL tier
must be one of the three values, while a NULL tier passes the check
(a NULL comparison is unknown, and CHECK accepts unknown). -/
def tierCheckOk (t : Option String) : Bool :=
  match t with
  | none => true
  | some s => s == "high" || s == "medium" || s == "low"

/-- Modelled from the spec: registration of a source under the table
constraints `UNIQUE(platform, identifier)` and the reliability-tier CHECK; a
violating row is rejected.  The registry code itself is not among the
sources, only the DDL is. -/
def insertSource (db : List SourceRow) (r : SourceRow) : List SourceRow :=
  if db.any (fun s => s.platform == r.platform && s.identifier == r.identifier) then db
  else if tierCheckOk r.reliability_tier then db ++ [r]
  else db

/-- Database states of the `sources` table produced by registration. -/
inductive SourcesReachable : List SourceRow → Prop
  | empty : SourcesReachable []
  | register (db : List SourceRow) (r : SourceRow) :
      SourcesReachable db → SourcesReachable (insertSource db r)

/-- A source row whose reliability tier is NULL. -/
def srcNullTier : SourceRow :=
  { id := 1, platform := "telegram", identifier := "somechannel",
    display_name := none, is_active := true, default_conflict_id := none,
    reliability_tier := none, content_filter_rules := "",
    telegram_chat_id := none }

/-! ## Geocode cache table (002_geocode_cache.sql, lines 4-13) -/

/-- One row of the `geocode_cache` table.  `cache_key VARCHAR(512)` is
`UNIQUE NOT NULL`; `lat`/`lon` are NOT NULL floats; `confidence` defaults
to 0.5. -/
structure GeocodeCacheRow where
  id : Nat
  cache_key : String
  place_name : String
  lat : Rat
  lon : Rat
  display_name : Option String
  confidence : Rat
  created_at : Int
deriving DecidableEq, Repr

/-- The column list of the `geocode_cache` table as declared by the DDL:
there is no TTL, expiry or invalidation column. -/
def geocodeCacheColumns : List String :=
  ["id", "cache_key", "place_name", "lat", "lon", "display_name",
   "confidence", "created_at"]

/-- Durable-cache lookup: the first row whose `cache_key` matches. -/
def cacheGet (db : List GeocodeCacheRow) (k : String) : Option GeocodeCacheRow :=
  db.find? (fun r => r.cache_key == k)

/-- Modelled from the spec: the only pipeline write to the durable cache
is the write-back of a positive resolution; under the `UNIQUE NOT NULL`
key constraint a row whose key is already present is rejected, and the
pipeline never deletes or updates cache rows ("once written, permanently
valid"). -/
def cachePut (db : List GeocodeCacheRow) (e : GeocodeCacheRow) : List GeocodeCacheRow :=
  if db.any (fun r => r.cache_key == e.cache_key) then db else db ++ [e]

/-- Database states of the `geocode_cache` table produced by write-backs. -/
inductive CacheReachable : List GeocodeCacheRow → Prop
  | empty : CacheReachable []
  | writeback (db : List GeocodeCacheRow) (e : GeocodeCacheRow) :
      CacheReachable db → CacheReachable (cachePut db e)

/-- Key-uniqueness invariant of the cache table. -/
def cacheUniqueOk (db : List GeocodeCacheRow) : Prop :=
  db.Pairwise (fun r s => ¬ r.cache_key = s.cache_key)

/-- A concrete geocode cache entry. -/
def sidonEntry : GeocodeCacheRow :=
  { id := 1, cache_key := "sidon|israel-iran", place_name := "Sidon",
    lat := 33, lon := 35, display_name := some "Sidon, Lebanon",
    confidence := 1, created_at := 100 }

/-- A second cache entry under a different key. -/
def haifaEntry : GeocodeCacheRow :=
  { id := 2, cache_key := "haifa|israel-iran", place_name := "Haifa",
    lat := 32, lon := 34, display_name := none,
    confidence := 0, created_at := 101 }

/-! ## Frontend geo utilities (utils/geo.js) -/

/-- A JS event object as consumed by `hasValidCoordinates` and
`eventToFeature`: every property the code touches, each possibly
null/undefined. -/
structure GeoEvent where
  id : Option Nat
  event_id : Option Nat
  message_id : Option Nat
  latitude : Option Rat
  lat : Option Rat
  longitude : Option Rat
  lon : Option Rat
  event_type : Option String
  location_name : Option String
  location : Option String
  confidence : Option Rat
  timestamp : Option String
  text : Option String
deriving DecidableEq, Repr

/-- JS `a ?? b` on possibly-null values. -/
def jsCoalesce {α : Type} (a b : Option α) : Option α :=
  match a with
  | some x => some x
  | none => b

/-- JS `s || d` for strings (`event.event_type || unknown-default`): falls back
on the default when the value is null/undefined or the empty string. -/
def jsStringOr (o : Option String) (d : String) : String :=
  match o with
  | some s => if s == "" then d else s
  | none => d

/-- `hasValidCoordinates` from utils/geo.js: the effective coordinates are
`latitude ?? lat` and `longitude ?? lon`; valid iff both are non-null and
they are not both exactly 0. -/
def hasValidCoordinates (event : GeoEvent) : Bool :=
  match jsCoalesce event.latitude event.lat, jsCoalesce event.longitude event.lon with
  | some la, some lo => !(la == 0 && lo == 0)
  | _, _ => false

/-- The GeoJSON feature built by `eventToFeature` (geometry coordinates
plus the `properties` object). -/
structure Feature where
  lon : Rat
  lat : Rat
  id : Option Nat
  message_id : Option Nat
  event_type : String
  location_name : String
  confidence : Rat
  timestamp : Option String
  text : String
deriving DecidableEq, Repr

/-- `eventToFeature` from utils/geo.js: null when the coordinates are not
valid, otherwise a point feature with the defaulted property fields. -/
def eventToFeature (event : GeoEvent) : Option Feature :=
  if hasValidCoordinates event then
    match jsCoalesce event.latitude event.lat, jsCoalesce event.longitude event.lon with
    | some la, some lo =>
        some { lon := lo, lat := la,
               id := jsCoalesce event.id event.event_id,
               message_id := event.message_id,
               event_type := jsStringOr event.event_type "unknown",
               location_name := (jsCoalesce event.location_name event.location).getD "",
               confidence := event.confidence.getD (1/2),
               timestamp := event.timestamp,
               text := event.text.getD "" }
    | _, _ => none
  else none

/-! ## Frontend application state (context/AppContext.jsx) -/

/-- A conflict object as served by the API and held in frontend state. -/
structure ConflictObj where
  id : Nat
  name : String
  short_code : String
  map_center_lat : Option Rat
  map_center_lon : Option Rat
  map_zoom_level : Option Nat
  is_active : Bool
deriving DecidableEq, Repr

/-- A historical event object as served by `/conflicts/{id}/events`,
mirroring an `events` table row. -/
structure EventObj where
  id : Nat
  message_id : Option Nat
  conflict_id : Option Nat
  event_type : Option String
  latitude : Option Rat
  longitude : Option Rat
  location_name : Option String
  confidence : Option Rat
  timestamp : Option String
deriving DecidableEq, Repr

/-- A live WebSocket payload as documented in the README (the exact field
set is settled separately): `event_id`, `message_id`, `conflict` (the
short code), `event_type`, `lat`, `lon`, `location`, `text`,
`timestamp`. -/
structure LiveEventPayload where
  event_id : Nat
  message_id : Nat
  conflict : String
  event_type : String
  lat : Option Rat
  lon : Option Rat
  location : Option String
  text : String
  timestamp : String
deriving DecidableEq, Repr

/-- The message detail object fetched for the popup. -/
structure MsgDetail where
  id : Nat
  platform : String
  text : String
  source_display_name : Option String
  source_identifier : Option String
  reliability_tier : Option String
deriving DecidableEq, Repr

/-- `MAX_LIVE_EVENTS` (AppContext.jsx line 5). -/
def MAX_LIVE_EVENTS : Nat := 200

/-- The frontend state shape (`initial` state object of AppContext). -/
structure AppState where
  conflicts : List ConflictObj
  selectedConflictId : Option Nat
  events : List EventObj
  liveEvents : List LiveEventPayload
  sources : List SourceRow
  highlightedEventId : Option Nat
  selectedMessage : Option MsgDetail
  wsConnected : Bool
deriving DecidableEq, Repr

/-- The action space of the reducer, one constructor per dispatched
`action.type` plus the default branch. -/
inductive Action where
  | setConflicts (payload : List ConflictObj)
  | selectConflict (payload : Option Nat)
  | setEvents (payload : List EventObj)
  | pushLiveEvent (payload : LiveEventPayload)
  | setSources (payload : List SourceRow)
  | highlightEvent (payload : Nat)
  | setMessageDetail (payload : Option MsgDetail)
  | clearHighlight
  | setWsStatus (payload : Bool)
  | unknownAction
deriving DecidableEq, Repr

/-- The reducer from AppContext.jsx.  `PUSH_LIVE_EVENT` prepends and
truncates with `.slice(0, MAX_LIVE_EVENTS)`, embedded as `List.take`. -/
def reducer (state : AppState) (action : Action) : AppState :=
  match action with
  | .setConflicts p => { state with conflicts := p }
  | .selectConflict p =>
      { state with selectedConflictId := p, events := [], liveEvents := [],
                   highlightedEventId := none, selectedMessage := none }
  | .setEvents p => { state with events := p }
  | .pushLiveEvent p =>
      { state with liveEvents := (p :: state.liveEvents).take MAX_LIVE_EVENTS }
  | .setSources p => { state with sources := p }
  | .highlightEvent p =>
      { state with
        highlightedEventId := if state.highlightedEventId = some p then none else some p,
        selectedMessage := none }
  | .setMessageDetail p => { state with selectedMessage := p }
  | .clearHighlight => { state with highlightedEventId := none, selectedMessage := none }
  | .setWsStatus p => { state with wsConnected := p }
  | .unknownAction => state

/-- The `initialState` object of AppContext.jsx. -/
def initialAppState : AppState :=
  { conflicts := [], selectedConflictId := none, events := [],
    liveEvents := [], sources := [], highlightedEventId := none,
    selectedMessage := none, wsConnected := false }

/-- A concrete live payload used by witnesses. -/
def samplePayload : LiveEventPayload :=
  { event_id := 1, message_id := 1, conflict := "israel-iran",
    event_type := "airstrike", lat := some 33, lon := some 35,
    location := some "Sidon", text := "report", timestamp := "t" }

/-! ## LiveSocket reconnect logic (api/websocket.js) -/

/-- `maxReconnectDelay` from the LiveSocket constructor. -/
def maxReconnectDelay : Nat := 30000

/-- The LiveSocket fields the reconnect logic touches. -/
structure LSState where
  reconnectDelay : Nat
  closed : Bool
deriving DecidableEq, Repr

/-- External stimuli driving a LiveSocket: entering `connect()` with a
successful or throwing `WebSocket` construction, the `onopen` and
`onclose` callbacks, and a `disconnect()` call.  (`onerror` only calls
`ws.close()`, surfacing later as `onclose`; `onmessage` does not touch
the reconnect state.) -/
inductive LSEvent where
  | connectStart
  | connectFail
  | openEvt
  | closeEvt
  | disconnect
deriving DecidableEq, Repr

/-- `_scheduleReconnect`: a no-op when closed; otherwise arms a timer with
the current delay (the emitted value) and doubles the stored delay up to
the cap. -/
def scheduleReconnect (s : LSState) : LSState × Option Nat :=
  if s.closed then (s, none)
  else ({ s with reconnectDelay := min (s.reconnectDelay * 2) maxReconnectDelay },
        some s.reconnectDelay)

/-- One LiveSocket transition.  `connect()` returns immediately when
closed; a throwing constructor falls through to `_scheduleReconnect`;
`onopen` resets the delay to 1000; `onclose` schedules a reconnect;
`disconnect()` sets the closed flag. -/
def lsStep (s : LSState) (e : LSEvent) : LSState × Option Nat :=
  match e with
  | .connectStart => (s, none)
  | .connectFail => if s.closed then (s, none) else scheduleReconnect s
  | .openEvt => ({ s with reconnectDelay := 1000 }, none)
  | .closeEvt => scheduleReconnect s
  | .disconnect => ({ s with closed := true }, none)

/-- A run of LiveSocket transitions, collecting every armed reconnect
timer delay. -/
def lsRun (s : LSState) : List LSEvent → LSState × List Nat
  | [] => (s, [])
  | e :: es =>
      let p := lsStep s e
      let q := lsRun p.1 es
      (q.1, p.2.toList ++ q.2)

/-- The constructor state: delay 1000, not closed. -/
def lsInit : LSState := { reconnectDelay := 1000, closed := false }

/-! ## Events table and pipeline event writer
(001_initial_schema.sql, lines 48-59; the pipeline itself is documented
but its code is not among the sources) -/

/-- One row of the `events` table: every payload column is nullable, in
particular `latitude FLOAT` and `longitude FLOAT`. -/
structure EventRow where
  id : Nat
  message_id : Option Nat
  conflict_id : Option Nat
  event_type : Option String
  latitude : Option Rat
  longitude : Option Rat
  location_name : Option String
  confidence : Option Rat
  timestamp : Option Int
deriving DecidableEq, Repr

/-- The Geocode Resolver contract:
`resolve(place_name, region_bias)` yields
`(lat, lon, display_name, confidence)` or `not_found`. -/
inductive GeoResult where
  | found (lat lon : Rat) (display : String) (conf : Rat)
  | not_found
deriving DecidableEq, Repr

/-- Modelled from the spec: the row the Event Writer builds for one
(message, conflict, location) combination; a `not_found` resolution
yields NULL latitude and longitude rather than dropping the message.
The writer code is not among the sources; only the `events` DDL is. -/
def mkEvent (eid : Nat) (msg : MessageRow) (conflictId : Nat) (etype : String)
    (loc : Option String) (g : GeoResult) : EventRow :=
  match g with
  | .found la lo _ c =>
      { id := eid, message_id := some msg.id, conflict_id := some conflictId,
        event_type := some etype, latitude := some la, longitude := some lo,
        location_name := loc, confidence := some c,
        timestamp := some msg.timestamp }
  | .not_found =>
      { id := eid, message_id := some msg.id, conflict_id := some conflictId,
        event_type := some etype, latitude := none, longitude := none,
        location_name := loc, confidence := none,
        timestamp := some msg.timestamp }

/-- Modelled from the spec: pipeline outcome for a message with one
candidate location.  Below-threshold classification yields no event but
still marks the message processed; a successful classification yields
exactly one event whose coordinates come from the resolver, and the
message is marked processed either way. -/
def processOneLocation (eid : Nat) (msg : MessageRow) (conflictId : Nat)
    (cls : Option (String × Rat)) (loc : Option String) (g : GeoResult) :
    List EventRow × Bool :=
  match cls with
  | none => ([], true)
  | some (etype, _) => ([mkEvent eid msg conflictId etype loc g], true)

/-! ## Geocode resolver key and tiers (spec section 4.5; the resolver
code is not among the sources, only its durable-cache DDL is) -/

/-- Lowercasing of a string, character by character. -/
def strToLower (s : String) : String :=
  String.mk (s.data.map Char.toLower)

/-- Modelled from the spec: cache key construction — lowercase the place
name and concatenate it with the region-bias token (empty string when no
bias), separated by `|` (002_geocode_cache.sql: the key column comment
reads `"place|region_bias" lowercased`). -/
def cacheKey (place : String) (bias : Option String) : String :=
  strToLower place ++ "|" ++ bias.getD ""

/-- A resolver hit: coordinates, display name and confidence. -/
structure GeoHit where
  lat : Rat
  lon : Rat
  display : String
  conf : Rat
deriving DecidableEq, Repr

/-- Modelled from the spec: three-tier resolution — process-local cache,
durable cache, then the external lookup; a positive external result is
written back to both cache tiers; a miss everywhere is `not_found`
(`none`) and is not cached.  Returns the result together with the
updated local and durable tiers. -/
def resolve (localCache : List (String × GeoHit)) (durable : List GeocodeCacheRow)
    (ext : String → Option String → Option GeoHit)
    (nextId : Nat) (now : Int) (place : String) (bias : Option String) :
    Option GeoHit × List (String × GeoHit) × List GeocodeCacheRow :=
  let key := cacheKey place bias
  match localCache.find? (fun p => p.1 == key) with
  | some p => (some p.2, localCache, durable)
  | none =>
    match cacheGet durable key with
    | some row =>
        let hit : GeoHit :=
          { lat := row.lat, lon := row.lon,
            display := row.display_name.getD "", conf := row.confidence }
        (some hit, (key, hit) :: localCache, durable)
    | none =>
      match ext place bias with
      | some hit =>
          (some hit, (key, hit) :: localCache,
           cachePut durable
             { id := nextId, cache_key := key, place_name := place,
               lat := hit.lat, lon := hit.lon,
               display_name := some hit.display,
               confidence := hit.conf, created_at := now })
      | none => (none, localCache, durable)

/-- A concrete event object with a missing confidence. -/
def eWithNoConf : GeoEvent :=
  { id := none, event_id := some 7, message_id := some 9,
    latitude := some 33, lat := none, longitude := some 35, lon := none,
    event_type := some "airstrike", location_name := none,
    location := some "Sidon", confidence := none,
    timestamp := some "t", text := none }

/-- The feature `eventToFeature` builds for `eWithNoConf`. -/
def fWithDefaultConf : Feature :=
  { lon := 35, lat := 33, id := some 7, message_id := some 9,
    event_type := "airstrike", location_name := "Sidon",
    confidence := 1/2, timestamp := some "t", text := "" }

/-! ## Live topic payload fields (C6) -/

/-- The field names of the live WebSocket payload as documented in the
README (lines 203-217) and consumed by the frontend live-event mapping. -/
def livePayloadFields : List String :=
  ["event_id", "message_id", "conflict", "event_type",
   "lat", "lon", "location", "text", "timestamp"]

/-- The field set the spec claims for the payload: the Event attributes
of section 3 (message reference, conflict reference, event type,
latitude, longitude, location name, geocode confidence, original message
timestamp) plus the short code of the resolved conflict, under the
naming of the payload itself (the conflict reference and the short code collapse to the
single `conflict` field). -/
def specClaimedPayloadFields : List String :=
  ["message_id", "conflict", "event_type",
   "lat", "lon", "location", "confidence", "timestamp"]

/-- The object MapView builds from a live payload before calling
`eventToFeature`: the payload spread plus `id`, `latitude`, `longitude`,
`location_name` aliases; the payload carries no `confidence` field, so
that property is absent. -/
def liveToGeoEvent (e : LiveEventPayload) : GeoEvent :=
  { id := some e.event_id, event_id := some e.event_id,
    message_id := some e.message_id,
    latitude := e.lat, lat := e.lat, longitude := e.lon, lon := e.lon,
    event_type := some e.event_type,
    location_name := e.location, location := e.location,
    confidence := none,
    timestamp := some e.timestamp, text := some e.text }

/-- The feature built from `samplePayload`. -/
def sampleFeature : Feature :=
  { lon := 35, lat := 33, id := some 1, message_id := some 1,
    event_type := "airstrike", location_name := "Sidon",
    confidence := 1/2, timestamp := some "t", text := "report" }

/-! ## Theorems -/

theorem msgKeyConflict_comm (r s : MessageRow) :
    msgKeyConflict r s = msgKeyConflict s r := by
  unfold msgKeyConflict
  rcases r with ⟨_, _, rp, rx, _, _, _⟩
  rcases s with ⟨_, _, sp, sx, _, _, _⟩
  simp only
  cases rx <;> cases sx <;> simp [BEq.comm]

theorem msgUniqueOk_insert (db : List MessageRow) (r : MessageRow)
    (h : msgUniqueOk db) : msgUniqueOk (insertMessage db r) := by
  unfold insertMessage
  by_cases hc : db.any (fun s => msgKeyConflict s r) = true
  · simpa [hc] using h
  · have hall : ∀ s ∈ db, msgKeyConflict s r = false := by
      intro s hs
      by_contra hne
      exact hc (List.any_eq_true.mpr ⟨s, hs, by simpa using hne⟩)
    have hif : (if db.any (fun s => msgKeyConflict s r) = true then db else db ++ [r])
        = db ++ [r] := if_neg hc
    rw [hif]
    unfold msgUniqueOk at h ⊢
    rw [List.pairwise_append]
    refine ⟨h, List.pairwise_singleton _ _, ?_⟩
    intro a ha b hb
    rcases List.mem_singleton.mp hb with rfl
    exact hall a ha

theorem msgUniqueOk_of_reachable (db : List MessageRow)
    (h : MessagesReachable db) : msgUniqueOk db := by
  induction h with
  | empty => exact List.Pairwise.nil
  | ingest db r _ ih => exact msgUniqueOk_insert db r ih

/-- C1 counterexample: under PostgreSQL `UNIQUE` semantics a second row
with the same platform and the same (NULL) `external_id` is accepted, so
a reachable `messages` state holds two distinct rows agreeing on
`(platform, external_id)` — the claim as stated is false when
`external_id` is NULL. -/
theorem c1_null_external_id_counterexample :
    insertMessage (insertMessage [] msgNullA) msgNullB = [msgNullA, msgNullB]
    ∧ MessagesReachable [msgNullA, msgNullB]
    ∧ msgNullA.platform = msgNullB.platform
    ∧ msgNullA.external_id = msgNullB.external_id
    ∧ msgNullA ≠ msgNullB := by
  refine ⟨by decide, ?_, by decide, by decide, by decide⟩
  have h := MessagesReachable.ingest _ msgNullB
    (MessagesReachable.ingest _ msgNullA MessagesReachable.empty)
  have he : insertMessage (insertMessage [] msgNullA) msgNullB = [msgNullA, msgNullB] := by
    decide
  rwa [he] at h

/-- C1 (amended): in every reachable `messages` state, two rows that agree
on `platform` and on a non-NULL `external_id` are the same row; the
`UNIQUE(platform, external_id)` constraint blocks duplicate ingestion
whenever `external_id` is non-NULL. -/
theorem c1_platform_external_id_unique
    (db : List MessageRow) (r s : MessageRow) (x : String)
    (hdb : MessagesReachable db) (hr : r ∈ db) (hs : s ∈ db)
    (hp : r.platform = s.platform)
    (hx : r.external_id = some x) (hsx : s.external_id = some x) :
    r = s := by
  have huniq := msgUniqueOk_of_reachable db hdb
  by_contra hne
  have hsym : Symmetric (fun r s : MessageRow => msgKeyConflict r s = false) := by
    intro a b hab
    rw [msgKeyConflict_comm]
    exact hab
  have hfalse := List.Pairwise.forall hsym huniq hr hs hne
  have htrue : msgKeyConflict r s = true := by
    unfold msgKeyConflict
    rw [hx, hsx]
    simp [hp]
  rw [htrue] at hfalse
  exact Bool.noConfusion hfalse

/-- Witness for the amended C1 at a concrete reachable state. -/
theorem c1_platform_external_id_unique_witness :
    ({ msgNullA with external_id := some "t1" } : MessageRow)
      = { msgNullA with external_id := some "t1" } := by
  have hreach : MessagesReachable
      (insertMessage [] { msgNullA with external_id := some "t1" }) :=
    MessagesReachable.ingest _ _ MessagesReachable.empty
  have he : insertMessage [] { msgNullA with external_id := some "t1" }
      = [{ msgNullA with external_id := some "t1" }] := by decide
  exact c1_platform_external_id_unique
    [{ msgNullA with external_id := some "t1" }]
    { msgNullA with external_id := some "t1" }
    { msgNullA with external_id := some "t1" } "t1"
    (he ▸ hreach) (by decide) (by decide) rfl (by decide) (by decide)

theorem sources_tier_checked (db : List SourceRow)
    (h : SourcesReachable db) : ∀ r ∈ db, tierCheckOk r.reliability_tier = true := by
  induction h with
  | empty => intro r hr; cases hr
  | register db r _ ih =>
    intro s hs
    unfold insertSource at hs
    by_cases hdup : db.any (fun s => s.platform == r.platform && s.identifier == r.identifier) = true
    · rw [if_pos hdup] at hs
      exact ih s hs
    · rw [if_neg hdup] at hs
      by_cases hchk : tierCheckOk r.reliability_tier = true
      · rw [if_pos hchk] at hs
        rcases List.mem_append.mp hs with hmem | hmem
        · exact ih s hmem
        · rcases List.mem_singleton.mp hmem with rfl
          exact hchk
      · rw [if_neg hchk] at hs
        exact ih s hs

/-- C7 counterexample: the CHECK constraint accepts a NULL reliability
tier, so a reachable `sources` state holds a row whose tier is none of
the three allowed values — the claim as stated ("is one of exactly the
three values") is false for a NULL tier. -/
theorem c7_null_tier_counterexample :
    insertSource [] srcNullTier = [srcNullTier]
    ∧ SourcesReachable [srcNullTier]
    ∧ ¬(srcNullTier.reliability_tier = some "high"
        ∨ srcNullTier.reliability_tier = some "medium"
        ∨ srcNullTier.reliability_tier = some "low") := by
  refine ⟨by decide, ?_, by decide⟩
  have h := SourcesReachable.register [] srcNullTier SourcesReachable.empty
  have he : insertSource [] srcNullTier = [srcNullTier] := by decide
  rwa [he] at h

/-- C7 (amended): in every reachable `sources` state, the reliability tier
is either NULL or one of exactly the three values `high`, `medium`,
`low`; the CHECK constraint keeps any other non-NULL value out. -/
theorem c7_reliability_tier_values
    (db : List SourceRow) (r : SourceRow)
    (hdb : SourcesReachable db) (hr : r ∈ db) :
    r.reliability_tier = none
    ∨ r.reliability_tier = some "high"
    ∨ r.reliability_tier = some "medium"
    ∨ r.reliability_tier = some "low" := by
  have hchk := sources_tier_checked db hdb r hr
  unfold tierCheckOk at hchk
  rcases hx : r.reliability_tier with _ | s
  · exact Or.inl rfl
  · rw [hx] at hchk
    simp only [Bool.or_eq_true, beq_iff_eq] at hchk
    rcases hchk with (rfl | rfl) | rfl
    · exact Or.inr (Or.inl (hx ▸ rfl))
    · exact Or.inr (Or.inr (Or.inl (hx ▸ rfl)))
    · exact Or.inr (Or.inr (Or.inr (hx ▸ rfl)))

/-- Witness for the amended C7 at a concrete reachable state. -/
theorem c7_reliability_tier_values_witness :
    ({ srcNullTier with reliability_tier := some "high" } : SourceRow).reliability_tier = none
    ∨ ({ srcNullTier with reliability_tier := some "high" } : SourceRow).reliability_tier = some "high"
    ∨ ({ srcNullTier with reliability_tier := some "high" } : SourceRow).reliability_tier = some "medium"
    ∨ ({ srcNullTier with reliability_tier := some "high" } : SourceRow).reliability_tier = some "low" := by
  have hreach : SourcesReachable
      (insertSource [] { srcNullTier with reliability_tier := some "high" }) :=
    SourcesReachable.register _ _ SourcesReachable.empty
  have he : insertSource [] { srcNullTier with reliability_tier := some "high" }
      = [{ srcNullTier with reliability_tier := some "high" }] := by decide
  exact c7_reliability_tier_values _ _ (he ▸ hreach) (by decide)

theorem cacheUniqueOk_put (db : List GeocodeCacheRow) (e : GeocodeCacheRow)
    (h : cacheUniqueOk db) : cacheUniqueOk (cachePut db e) := by
  unfold cachePut
  by_cases hc : db.any (fun r => r.cache_key == e.cache_key) = true
  · simpa [hc] using h
  · have hall : ∀ r ∈ db, ¬ r.cache_key = e.cache_key := by
      intro r hr hk
      exact hc (List.any_eq_true.mpr ⟨r, hr, by simpa using hk⟩)
    have hif : (if db.any (fun r => r.cache_key == e.cache_key) = true then db else db ++ [e])
        = db ++ [e] := if_neg hc
    rw [hif]
    unfold cacheUniqueOk at h ⊢
    rw [List.pairwise_append]
    refine ⟨h, List.pairwise_singleton _ _, ?_⟩
    intro a ha b hb
    rcases List.mem_singleton.mp hb with rfl
    exact hall a ha

theorem cacheUniqueOk_of_reachable (db : List GeocodeCacheRow)
    (h : CacheReachable db) : cacheUniqueOk db := by
  induction h with
  | empty => exact List.Pairwise.nil
  | writeback db e _ ih => exact cacheUniqueOk_put db e ih

theorem find_append_left {α : Type} (p : α → Bool) (l1 l2 : List α) (r : α)
    (h : l1.find? p = some r) : (l1 ++ l2).find? p = some r := by
  induction l1 with
  | nil => simp [List.find?] at h
  | cons a t ih =>
    rw [List.cons_append]
    cases hpa : p a with
    | true =>
      simp only [List.find?, hpa] at h ⊢
      exact h
    | false =>
      simp only [List.find?, hpa] at h ⊢
      exact ih h

theorem cacheGet_append (db : List GeocodeCacheRow) (e : GeocodeCacheRow)
    (k : String) (r : GeocodeCacheRow) (h : cacheGet db k = some r) :
    cacheGet (db ++ [e]) k = some r := by
  unfold cacheGet at h ⊢
  exact find_append_left _ db [e] r h

theorem cacheGet_put (db : List GeocodeCacheRow) (e : GeocodeCacheRow)
    (k : String) (r : GeocodeCacheRow) (h : cacheGet db k = some r) :
    cacheGet (cachePut db e) k = some r := by
  unfold cachePut
  by_cases hc : db.any (fun x => x.cache_key == e.cache_key) = true
  · simpa [hc] using h
  · rw [if_neg hc]
    exact cacheGet_append db e k r h

/-- C3: in every reachable `geocode_cache` state, equal cache keys name the
same row, and an entry once readable stays readable unchanged through any
later sequence of pipeline write-backs (no invalidation); the table
declares no TTL or expiry column. -/
theorem c3_cache_key_unique_no_ttl
    (db : List GeocodeCacheRow) (r s : GeocodeCacheRow)
    (ops : List GeocodeCacheRow) (k : String)
    (hdb : CacheReachable db) (hr : r ∈ db) (hs : s ∈ db)
    (hk : r.cache_key = s.cache_key) (hg : cacheGet db k = some r) :
    r = s
    ∧ cacheGet (ops.foldl cachePut db) k = some r
    ∧ "ttl" ∉ geocodeCacheColumns
    ∧ "expires_at" ∉ geocodeCacheColumns := by
  refine ⟨?_, ?_, by decide, by decide⟩
  · have huniq := cacheUniqueOk_of_reachable db hdb
    by_contra hne
    have hsym : Symmetric (fun r s : GeocodeCacheRow => ¬ r.cache_key = s.cache_key) := by
      intro a b hab hba
      exact hab hba.symm
    exact List.Pairwise.forall hsym huniq hr hs hne hk
  · clear hr hs hk hdb
    induction ops generalizing db with
    | nil => exact hg
    | cons e t ih =>
      rw [List.foldl_cons]
      exact ih (cachePut db e) (cacheGet_put db e k r hg)

/-- Witness for C3 at a concrete reachable cache state. -/
theorem c3_cache_key_unique_no_ttl_witness :
    sidonEntry = sidonEntry
    ∧ cacheGet ([haifaEntry].foldl cachePut [sidonEntry]) "sidon|israel-iran" = some sidonEntry
    ∧ "ttl" ∉ geocodeCacheColumns
    ∧ "expires_at" ∉ geocodeCacheColumns := by
  have hreach : CacheReachable (cachePut [] sidonEntry) :=
    CacheReachable.writeback [] sidonEntry CacheReachable.empty
  have he : cachePut [] sidonEntry = [sidonEntry] := by decide
  exact c3_cache_key_unique_no_ttl [sidonEntry] sidonEntry sidonEntry
    [haifaEntry] "sidon|israel-iran" (he ▸ hreach)
    (by decide) (by decide) rfl (by decide)

/-- C9: `eventToFeature` returns null exactly when `hasValidCoordinates`
is false, and `hasValidCoordinates` is false exactly when an effective
coordinate is null or both effective coordinates are exactly 0 — an event
at the real coordinate (0,0) is treated as having no location. -/
theorem c9_eventToFeature_null_iff_invalid (event : GeoEvent) :
    (eventToFeature event = none ↔ hasValidCoordinates event = false)
    ∧ (hasValidCoordinates event = false ↔
        (jsCoalesce event.latitude event.lat = none
         ∨ jsCoalesce event.longitude event.lon = none
         ∨ (jsCoalesce event.latitude event.lat = some 0
            ∧ jsCoalesce event.longitude event.lon = some 0))) := by
  cases hla : jsCoalesce event.latitude event.lat with
  | none =>
    cases hlo : jsCoalesce event.longitude event.lon with
    | none => simp [eventToFeature, hasValidCoordinates, hla, hlo]
    | some lo => simp [eventToFeature, hasValidCoordinates, hla, hlo]
  | some la =>
    cases hlo : jsCoalesce event.longitude event.lon with
    | none => simp [eventToFeature, hasValidCoordinates, hla, hlo]
    | some lo =>
      by_cases hz : la = 0 ∧ lo = 0
      · rcases hz with ⟨rfl, rfl⟩
        simp [eventToFeature, hasValidCoordinates, hla, hlo]
      · have hzb : (la == 0 && lo == 0) = false := by
          rcases Decidable.not_and_iff_or_not.mp hz with h | h <;>
            simp [beq_iff_eq, h]
        simp [eventToFeature, hasValidCoordinates, hla, hlo, hzb, hz]

/-- C8: the reducer keeps `liveEvents` at length at most 200 (the bound
holds initially and every action preserves it); `PUSH_LIVE_EVENT`
prepends the new event and keeps only the first 200 entries;
`SELECT_CONFLICT` empties the list. -/
theorem c8_live_events_bounded
    (s : AppState) (a : Action) (e : LiveEventPayload) (c : Option Nat)
    (h : s.liveEvents.length ≤ MAX_LIVE_EVENTS) :
    (reducer s a).liveEvents.length ≤ MAX_LIVE_EVENTS
    ∧ (reducer s (.pushLiveEvent e)).liveEvents = (e :: s.liveEvents).take MAX_LIVE_EVENTS
    ∧ (reducer s (.selectConflict c)).liveEvents = []
    ∧ initialAppState.liveEvents.length ≤ MAX_LIVE_EVENTS := by
  refine ⟨?_, rfl, rfl, by decide⟩
  cases a <;> simp [reducer] <;> exact h

/-- Witness for C8 at the initial state. -/
theorem c8_live_events_bounded_witness :
    (reducer initialAppState Action.unknownAction).liveEvents.length ≤ MAX_LIVE_EVENTS
    ∧ (reducer initialAppState (.pushLiveEvent samplePayload)).liveEvents
      = (samplePayload :: initialAppState.liveEvents).take MAX_LIVE_EVENTS
    ∧ (reducer initialAppState (.selectConflict (some 1))).liveEvents = []
    ∧ initialAppState.liveEvents.length ≤ MAX_LIVE_EVENTS :=
  c8_live_events_bounded initialAppState Action.unknownAction samplePayload
    (some 1) (by decide)

theorem lsStep_closed (s : LSState) (e : LSEvent) (h : s.closed = true) :
    (lsStep s e).1.closed = true ∧ (lsStep s e).2 = none := by
  cases e <;> simp [lsStep, scheduleReconnect, h]

theorem lsRun_closed (s : LSState) (es : List LSEvent) (h : s.closed = true) :
    (lsRun s es).2 = [] := by
  induction es generalizing s with
  | nil => rfl
  | cons e es ih =>
    have hc := lsStep_closed s e h
    simp [lsRun, hc.2, ih (lsStep s e).1 hc.1]

/-- C10: starting from a delay within [1000, 30000] every transition keeps
the delay within [1000, 30000]; every armed reconnect timer carries the
current in-range delay and doubles the stored delay up to the 30000 cap;
`onopen` resets the delay to 1000; `disconnect()` sets the closed flag
and once closed a run of transitions never arms another reconnect. -/
theorem c10_reconnect_delay_invariant
    (s : LSState) (e : LSEvent) (es : List LSEvent) (d : Nat)
    (hinv : 1000 ≤ s.reconnectDelay ∧ s.reconnectDelay ≤ 30000) :
    (1000 ≤ (lsStep s e).1.reconnectDelay ∧ (lsStep s e).1.reconnectDelay ≤ 30000)
    ∧ ((lsStep s e).2 = some d →
        1000 ≤ d ∧ d ≤ 30000
        ∧ (lsStep s e).1.reconnectDelay = min (d * 2) maxReconnectDelay)
    ∧ (lsStep s .openEvt).1.reconnectDelay = 1000
    ∧ (lsStep s .disconnect).1.closed = true
    ∧ (s.closed = true → (lsRun s es).2 = []) := by
  obtain ⟨hlo, hhi⟩ := hinv
  have hmin : 1000 ≤ min (s.reconnectDelay * 2) maxReconnectDelay
      ∧ min (s.reconnectDelay * 2) maxReconnectDelay ≤ 30000 := by
    constructor
    · exact le_min (le_trans (by omega) (Nat.mul_le_mul_right 2 hlo)) (by decide)
    · exact min_le_right _ _
  refine ⟨?_, ?_, by simp [lsStep], by simp [lsStep], fun h => lsRun_closed s es h⟩
  · cases e <;> simp [lsStep, scheduleReconnect] <;>
      by_cases hc : s.closed = true <;>
      simp [hc, hlo, hhi, hmin.1, hmin.2]
  · intro hd
    cases e <;> simp [lsStep, scheduleReconnect] at hd ⊢ <;>
      by_cases hc : s.closed = true <;>
      simp [hc] at hd ⊢
    · rcases hd with ⟨rfl, _⟩
      exact ⟨hlo, hhi, by simp [scheduleReconnect, hc]⟩
    · rcases hd with ⟨rfl, _⟩
      exact ⟨hlo, hhi, by simp [scheduleReconnect, hc]⟩

/-- Witness for C10 at a concrete closed state. -/
theorem c10_reconnect_delay_invariant_witness :
    (1000 ≤ (lsStep { reconnectDelay := 1000, closed := true } LSEvent.closeEvt).1.reconnectDelay
      ∧ (lsStep { reconnectDelay := 1000, closed := true } LSEvent.closeEvt).1.reconnectDelay ≤ 30000)
    ∧ ((lsStep { reconnectDelay := 1000, closed := true } LSEvent.closeEvt).2 = some 1000 →
        1000 ≤ 1000 ∧ 1000 ≤ 30000
        ∧ (lsStep { reconnectDelay := 1000, closed := true } LSEvent.closeEvt).1.reconnectDelay
          = min (1000 * 2) maxReconnectDelay)
    ∧ (lsStep { reconnectDelay := 1000, closed := true } LSEvent.openEvt).1.reconnectDelay = 1000
    ∧ (lsStep { reconnectDelay := 1000, closed := true } LSEvent.disconnect).1.closed = true
    ∧ (({ reconnectDelay := 1000, closed := true } : LSState).closed = true →
        (lsRun { reconnectDelay := 1000, closed := true } [LSEvent.closeEvt, LSEvent.connectFail]).2 = []) :=
  c10_reconnect_delay_invariant
    { reconnectDelay := 1000, closed := true } LSEvent.closeEvt
    [LSEvent.closeEvt, LSEvent.connectFail] 1000 ⟨by decide, by decide⟩

/-- C2: when classification succeeded and geocoding yields `not_found`,
an Event is still created — exactly one — with NULL latitude and NULL
longitude (the schema admits NULL for both), and the message is marked
processed rather than dropped. -/
theorem c2_geocode_failure_null_coordinates
    (eid : Nat) (msg : MessageRow) (conflictId : Nat) (etype : String)
    (conf : Rat) (loc : Option String) :
    (processOneLocation eid msg conflictId (some (etype, conf)) loc GeoResult.not_found).1
      = [mkEvent eid msg conflictId etype loc GeoResult.not_found]
    ∧ (mkEvent eid msg conflictId etype loc GeoResult.not_found).latitude = none
    ∧ (mkEvent eid msg conflictId etype loc GeoResult.not_found).longitude = none
    ∧ (processOneLocation eid msg conflictId (some (etype, conf)) loc GeoResult.not_found).2 = true :=
  ⟨rfl, rfl, rfl, rfl⟩

/-- C4: the key `resolve` uses is the lowercased place name, a `|`
separator, and the region-bias token (empty when no bias): a local-cache
entry stored under exactly that key answers the resolution, and
`resolve("Sidon", "israel-iran")` uses the key `"sidon|israel-iran"`. -/
theorem c4_cache_key_construction
    (place : String) (bias : Option String) (h : GeoHit)
    (durable : List GeocodeCacheRow)
    (ext : String → Option String → Option GeoHit) (nextId : Nat) (now : Int) :
    cacheKey place bias = strToLower place ++ "|" ++ bias.getD ""
    ∧ (resolve [(cacheKey place bias, h)] durable ext nextId now place bias).1 = some h
    ∧ cacheKey "Sidon" (some "israel-iran") = "sidon|israel-iran" := by
  refine ⟨rfl, ?_, by decide⟩
  simp [resolve, List.find?]

/-! ## Geocode confidence bounds (C5) -/

theorem eventToFeature_confidence (e : GeoEvent) (f : Feature)
    (hf : eventToFeature e = some f) :
    f.confidence = e.confidence.getD (1/2) := by
  unfold eventToFeature at hf
  by_cases hv : hasValidCoordinates e = true
  · rw [if_pos hv] at hf
    cases hla : jsCoalesce e.latitude e.lat with
    | none =>
      rw [hla] at hf
      cases hlo : jsCoalesce e.longitude e.lon <;> rw [hlo] at hf <;> cases hf
    | some la =>
      rw [hla] at hf
      cases hlo : jsCoalesce e.longitude e.lon with
      | none => rw [hlo] at hf; cases hf
      | some lo =>
        rw [hlo] at hf
        injection hf with h
        rw [← h]
  · rw [if_neg hv] at hf
    cases hf

/-- C5: the creation side (the Event Writer on a resolver hit whose
confidence lies in [0,1]) stores a confidence in [0,1]; the reading side
(`eventToFeature`) keeps any in-range stored confidence in [0,1] and
substitutes 0.5 for a missing one. -/
theorem c5_confidence_bounds
    (eid cid : Nat) (msg : MessageRow) (etype : String) (loc : Option String)
    (la lo c x : Rat) (d : String) (e : GeoEvent) (f : Feature)
    (hc : 0 ≤ c ∧ c ≤ 1)
    (hx : (mkEvent eid msg cid etype loc (GeoResult.found la lo d c)).confidence = some x)
    (he : ∀ y, e.confidence = some y → 0 ≤ y ∧ y ≤ 1)
    (hf : eventToFeature e = some f) :
    (0 ≤ x ∧ x ≤ 1)
    ∧ (0 ≤ f.confidence ∧ f.confidence ≤ 1)
    ∧ (e.confidence = none → f.confidence = 1/2) := by
  have hconf := eventToFeature_confidence e f hf
  refine ⟨?_, ?_, ?_⟩
  · have : some c = some x := hx
    injection this with hcx
    exact hcx ▸ hc
  · rw [hconf]
    cases hec : e.confidence with
    | none => norm_num [Option.getD]
    | some y => simpa [Option.getD] using he y hec
  · intro hec
    rw [hconf, hec]
    rfl

/-- Witness for C5 at a concrete event and feature. -/
theorem c5_confidence_bounds_witness :
    ((0:Rat) ≤ 1 ∧ (1:Rat) ≤ 1)
    ∧ (0 ≤ fWithDefaultConf.confidence ∧ fWithDefaultConf.confidence ≤ 1)
    ∧ (eWithNoConf.confidence = none → fWithDefaultConf.confidence = 1/2) :=
  c5_confidence_bounds 1 1 msgNullA "airstrike" (some "Sidon")
    33 35 1 1 "Sidon, Lebanon" eWithNoConf fWithDefaultConf
    ⟨by decide, by decide⟩ rfl
    (fun y hy => by simp [eWithNoConf] at hy) rfl

/-- C6 counterexample: the payload field set differs from the claimed
one — `confidence` is claimed but absent from the payload, while
`text` and `event_id` are in the payload but are not Event attributes of
section 3 (text is a Message attribute). -/
theorem c6_payload_fields_counterexample :
    "confidence" ∈ specClaimedPayloadFields
    ∧ "confidence" ∉ livePayloadFields
    ∧ "text" ∈ livePayloadFields
    ∧ "text" ∉ specClaimedPayloadFields
    ∧ "event_id" ∈ livePayloadFields
    ∧ "event_id" ∉ specClaimedPayloadFields := by
  refine ⟨?_, ?_, ?_, ?_, ?_, ?_⟩ <;> decide

/-- C6 (amended): the live payload fields are exactly `event_id`,
`message_id`, `conflict` (the short code), `event_type`, `lat`, `lon`,
`location`, `text`, `timestamp` — the Event attributes of section 3
without the geocode confidence and with the event id and message text
added; the reading side substitutes the default confidence 0.5 for every
live event. -/
theorem c6_payload_fields (e : LiveEventPayload) (f : Feature)
    (hf : eventToFeature (liveToGeoEvent e) = some f) :
    livePayloadFields
      = ["event_id", "message_id", "conflict", "event_type",
         "lat", "lon", "location", "text", "timestamp"]
    ∧ f.confidence = 1/2 := by
  refine ⟨rfl, ?_⟩
  have h := eventToFeature_confidence (liveToGeoEvent e) f hf
  simpa [liveToGeoEvent] using h

/-- Witness for the amended C6 at a concrete payload. -/
theorem c6_payload_fields_witness :
    livePayloadFields
      = ["event_id", "message_id", "conflict", "event_type",
         "lat", "lon", "location", "text", "timestamp"]
    ∧ sampleFeature.confidence = 1/2 :=
  c6_payload_fields samplePayload sampleFeature rfl

end OSINT
